import Mathlib

/-!
Verification development for the message_sender repository.

The definitions below are shallow embeddings of the Rust sources:
atomics become plain fields (each embedded operation is one atomic
mutation of the record), machine integers become Nat, the opaque
32-byte Signal group key and the WhatsApp Jid become opaque Nat and
String identifiers, and fallible backend calls are driven by explicit
outcome oracles.  Each definition's doc comment names the source
item it embeds.  Definitions whose code is referenced by the sources
but absent from them are marked `Modelled from the spec:`.
-/

namespace MessageSender

/-- Embeds `SendMode` from src/src/message/mod.rs: the cyclic
per-destination annotation mode. -/
inductive SendMode where
  | Off
  | Normal
  | Frequency
deriving DecidableEq, Repr

/-- Embeds `SendMode::next` (src/src/message/mod.rs). -/
def SendMode.next : SendMode → SendMode
  | .Off => .Normal
  | .Normal => .Frequency
  | .Frequency => .Off

/-- Embeds `SendMode::active` (src/src/message/mod.rs): false exactly for `Off`. -/
def SendMode.active : SendMode → Bool
  | .Off => false
  | _ => true

/-- Embeds `SendStatus` from src/src/ui/message_history.rs. -/
inductive SendStatus where
  | Pending
  | Sending
  | Sent
  | Failed
  | Deleted
deriving DecidableEq, Repr

/-- Embeds `Key` from src/src/messangers/mod.rs; the 32-byte Signal
group key and the WhatsApp `Jid` are opaque identifiers, modelled as
Nat and String respectively. -/
inductive Key where
  | signal (key : Nat)
  | whatsapp (jid : String)
deriving DecidableEq, Repr

/-- Embeds `GroupInfoSignal` (src/src/ui/message_history.rs): the
`AtomicU64` timestamp is a plain Nat, `0` meaning not sent. -/
structure GroupInfoSignal where
  key : Nat
  timestamp : Nat
  send_mode : SendMode
deriving DecidableEq, Repr

/-- Embeds `GroupInfoSignal::new`: timestamp starts at 0 (unset). -/
def GroupInfoSignal.new (key : Nat) (send_mode : SendMode) : GroupInfoSignal :=
  { key := key, timestamp := 0, send_mode := send_mode }

/-- Embeds `GroupInfoSignal::set_timestamp`. -/
def GroupInfoSignal.set_timestamp (g : GroupInfoSignal) (t : Nat) : GroupInfoSignal :=
  { g with timestamp := t }

/-- Embeds `GroupInfoSignal::sent`: the completion marker is set iff the
timestamp is nonzero. -/
def GroupInfoSignal.sent (g : GroupInfoSignal) : Bool :=
  g.timestamp != 0

/-- Embeds `GroupInfoWhatsapp` (src/src/ui/message_history.rs): the
`AtomicBool` sent flag and the mutex-held message-identifier string
are plain fields. -/
structure GroupInfoWhatsapp where
  key : String
  sent : Bool
  sent_id : String
  send_mode : SendMode
deriving DecidableEq, Repr

/-- Embeds `GroupInfoWhatsapp::new`: flag false, identifier empty. -/
def GroupInfoWhatsapp.new (key : String) (send_mode : SendMode) : GroupInfoWhatsapp :=
  { key := key, sent := false, sent_id := "", send_mode := send_mode }

/-- Embeds `GroupInfoWhatsapp::delete`: clears only the sent flag. -/
def GroupInfoWhatsapp.delete (g : GroupInfoWhatsapp) : GroupInfoWhatsapp :=
  { g with sent := false }

/-- Embeds `GroupInfoWhatsapp::set_id`: stores the identifier and sets the flag. -/
def GroupInfoWhatsapp.set_id (g : GroupInfoWhatsapp) (id : String) : GroupInfoWhatsapp :=
  { g with sent_id := id, sent := true }

/-- Embeds `GroupInfoWhatsapp::message_id`: the identifier when nonempty. -/
def GroupInfoWhatsapp.message_id (g : GroupInfoWhatsapp) : Option String :=
  if g.sent_id = "" then none else some g.sent_id

/-- Embeds `SendMessageInfo` (src/src/ui/message_history.rs), the
delivery record: content, optional frequency annotation, atomic status
(plain field) and the per-backend destination lists. -/
structure SendMessageInfo where
  content : String
  freq : Option String
  status : SendStatus
  groups_signal : List GroupInfoSignal
  groups_whatsapp : List GroupInfoWhatsapp
deriving DecidableEq, Repr

/-- Embeds `SendMessageInfo::new`: status starts `Pending`, no destinations. -/
def SendMessageInfo.new (content : String) (freq : Option String) : SendMessageInfo :=
  { content := content, freq := freq, status := .Pending,
    groups_signal := [], groups_whatsapp := [] }

/-- Embeds `SendMessageInfo::push`: appends a destination to the list of
its backend. -/
def SendMessageInfo.push (m : SendMessageInfo) (k : Key) (mode : SendMode) : SendMessageInfo :=
  match k with
  | .signal key => { m with groups_signal := m.groups_signal ++ [GroupInfoSignal.new key mode] }
  | .whatsapp key => { m with groups_whatsapp := m.groups_whatsapp ++ [GroupInfoWhatsapp.new key mode] }

/-- Embeds `SendMessageInfo::sent_count`: chains both backends' sent
flags and counts the true ones. -/
def SendMessageInfo.sent_count (m : SendMessageInfo) : Nat :=
  (m.groups_signal.map GroupInfoSignal.sent ++ m.groups_whatsapp.map GroupInfoWhatsapp.sent).count true

/-- Embeds `SendMessageInfo::len`: total number of destinations. -/
def SendMessageInfo.len (m : SendMessageInfo) : Nat :=
  m.groups_signal.length + m.groups_whatsapp.length

/-- Embeds `SendMessageInfo::set_status` (src/src/ui/message_history.rs,
lines 167-175): the guarded store.  `Deleted` is refused while any
marker is set, `Sent` is refused unless every marker is set; a refused
call returns before the store, leaving the record untouched. -/
def SendMessageInfo.set_status (m : SendMessageInfo) (status : SendStatus) : SendMessageInfo :=
  let sent_count := m.sent_count
  if (SendStatus.Deleted = status ∧ sent_count ≠ 0)
      ∨ (SendStatus.Sent = status ∧ sent_count ≠ m.len) then
    m
  else
    { m with status := status }

/-- Claim C1: for every delivery record, `set_status Sent` stores `Sent`
exactly when the number of set completion markers equals the destination
count, `set_status Deleted` stores `Deleted` exactly when no marker is
set, the three unguarded statuses are always stored, and a guarded call
whose precondition fails returns the record unchanged. -/
theorem C1_set_status_guarded (m : SendMessageInfo) :
    m.set_status .Pending = { m with status := .Pending } ∧
    m.set_status .Sending = { m with status := .Sending } ∧
    m.set_status .Failed = { m with status := .Failed } ∧
    m.set_status .Sent = (if m.sent_count = m.len then { m with status := .Sent } else m) ∧
    m.set_status .Deleted = (if m.sent_count = 0 then { m with status := .Deleted } else m) := by
  refine ⟨?_, ?_, ?_, ?_, ?_⟩ <;>
    simp only [SendMessageInfo.set_status] <;>
    split <;>
    simp_all

/-- Claim C6, counterexample: the record built by `SendMessageInfo::new`
(created verbatim by the `SendMessage` handler in
src/src/ui/main_screen.rs before any destination is pushed, and left in
the history with no destinations when no group is active) has
completed-count equal to its total destination count (both 0) while its
status is `Pending`, not `Sent`; so `status == Sent` does not hold iff
completed-count equals the total at every reachable state. -/
theorem C6_sent_iff_counterexample :
    (SendMessageInfo.new "a" none).sent_count = (SendMessageInfo.new "a" none).len ∧
    (SendMessageInfo.new "a" none).status ≠ SendStatus.Sent := by
  constructor <;> decide

/-- Claim C6, amended: the completed-destination count never exceeds the
total destination count, and `set_status Sent` results in status `Sent`
exactly when the record was already `Sent` or every marker is set; the
unconditional direction of the claimed iff (count = total forcing
status `Sent`) does not hold. -/
theorem C6_count_bound_and_sent_guard (m : SendMessageInfo) :
    m.sent_count ≤ m.len ∧
    ((m.set_status .Sent).status = .Sent ↔ (m.status = .Sent ∨ m.sent_count = m.len)) := by
  constructor
  · have h := List.count_le_length (a := true)
      (l := m.groups_signal.map GroupInfoSignal.sent ++ m.groups_whatsapp.map GroupInfoWhatsapp.sent)
    simpa [SendMessageInfo.sent_count, SendMessageInfo.len] using h
  · simp only [SendMessageInfo.set_status]
    by_cases h : m.sent_count = m.len
    · simp [h]
    · split
      · constructor
        · intro hs
          exact Or.inl hs
        · intro _
          simp_all
      · simp_all

/-- Embeds `Group` (src/src/ui/main_screen.rs): a known destination's
title and its global send mode. -/
structure Group where
  title : String
  send_mode : SendMode
deriving DecidableEq, Repr

/-- Embeds `Group::active`. -/
def Group.active (g : Group) : Bool :=
  g.send_mode.active

/-- Modelled from the spec: `SendMode::update` is called by the routing
code in src/src/ui/main_screen.rs but its definition is absent from the
sources.  The spec's routing rule, that with several matching categories
the last category processed wins for a shared destination, makes
`update` replace the stored mode with the newly supplied one. -/
def SendMode.update (_self other : SendMode) : SendMode :=
  other

/-- Modelled from the spec: the current `SendCategory` declaration is
absent from the sources (src/src/send_categories.rs holds an older
revision without `use_general` and with differently typed networks,
while src/src/ui/category_screen.rs mutates `use_general` and pushes
numeric network ids).  Fields follow the spec's data model: a name, the
set of network identifiers it matches, the explicit destination-to-mode
override mapping, and the `use_general` flag.  The override map is kept
as an association list. -/
structure SendCategory where
  name : String
  networks : List Nat
  groups : List (Key × SendMode)
  use_general : Bool
deriving DecidableEq, Repr

/-- Modelled from the spec: `SendCategory::contains_network` is called by
src/src/ui/main_screen.rs but absent from the sources; per the spec a
category matches a network iff its network set contains the id. -/
def SendCategory.contains_network (c : SendCategory) (network : Nat) : Bool :=
  c.networks.contains network

/-- Embeds the `HashMap::entry(k).and_modify(f).or_insert(v)` pattern on
the routing accumulator: modify the stored value in place when the key
is present, otherwise insert the default. -/
def entryAndModifyOrInsert (m : List (Key × SendMode)) (k : Key)
    (f : SendMode → SendMode) (v : SendMode) : List (Key × SendMode) :=
  match m with
  | [] => [(k, v)]
  | (k0, v0) :: rest =>
    if k0 = k then (k0, f v0) :: rest
    else (k0, v0) :: entryAndModifyOrInsert rest k f v

/-- Embeds the inner loop of the `SendMessage` routing handler
(src/src/ui/main_screen.rs lines 170-174) for one matching category.
The source closure is written `|mode| mode.update(*mode)`: its parameter
shadows the iteration variable, so the existing entry is passed to
`update` as both receiver and argument, and the category's own mode only
reaches the map through `or_insert`. -/
def addCategoryGroups (acc : List (Key × SendMode)) (gs : List (Key × SendMode)) :
    List (Key × SendMode) :=
  gs.foldl (fun acc kv => entryAndModifyOrInsert acc kv.1 (fun cur => cur.update cur) kv.2) acc

/-- Embeds the category scan of the `SendMessage` routing handler
(src/src/ui/main_screen.rs lines 166-177): fold the override maps of
every category matching the network and accumulate the `use_general`
flag. -/
def collectCategoryGroups (network : Nat) (categories : List SendCategory) :
    List (Key × SendMode) × Bool :=
  categories.foldl
    (fun acc c =>
      if c.contains_network network then
        (addCategoryGroups acc.1 c.groups, acc.2 || c.use_general)
      else acc)
    ([], false)

/-- Embeds the `use_general` merge (src/src/ui/main_screen.rs lines
181-189): every active global destination is merged into the
accumulator; here the `and_modify` closure passes the global mode to
`update` (no shadowing at this call site). -/
def addGeneralGroups (acc : List (Key × SendMode)) (globals : List (Key × Group)) :
    List (Key × SendMode) :=
  globals.foldl
    (fun acc kg =>
      if kg.2.active then
        entryAndModifyOrInsert acc kg.1 (fun cur => cur.update kg.2.send_mode) kg.2.send_mode
      else acc)
    acc

/-- Embeds the general fallback of the routing handler
(src/src/ui/main_screen.rs lines 195-209): push every active global
destination with its global mode. -/
def generalGroups (globals : List (Key × Group)) : List (Key × SendMode) :=
  (globals.filter (fun kg => kg.2.active)).map (fun kg => (kg.1, kg.2.send_mode))

/-- Embeds the full destination resolution of the `SendMessage` handler
(src/src/ui/main_screen.rs lines 159-210): the list of
(destination, mode) pairs pushed into the freshly built record. -/
def routeMessage (network : Option Nat) (categories : List SendCategory)
    (globals : List (Key × Group)) : List (Key × SendMode) :=
  match network with
  | some net =>
    let scanned := collectCategoryGroups net categories
    if scanned.1.isEmpty then generalGroups globals
    else if scanned.2 then addGeneralGroups scanned.1 globals
    else scanned.1
  | none => generalGroups globals

/-- Category named A matching network 1, overriding destination
`signal 1` to `Normal`. -/
def exCatA : SendCategory :=
  { name := "A", networks := [1], groups := [(Key.signal 1, SendMode.Normal)], use_general := false }

/-- Category named B matching network 1, overriding destination
`signal 1` to `Frequency`. -/
def exCatB : SendCategory :=
  { name := "B", networks := [1], groups := [(Key.signal 1, SendMode.Frequency)], use_general := false }

/-- Claim C2, evaluation at the claimed scenario: with category A
(override Normal) processed before category B (override Frequency), both
matching network 1, resolution yields `Normal` for the shared
destination, not `Frequency`: the `and_modify` closure shadows the loop
variable, so the later category's mode never reaches the accumulator and
the first matching category wins. -/
theorem C2_last_category_loses :
    routeMessage (some 1) [exCatA, exCatB] [] = [(Key.signal 1, SendMode.Normal)] ∧
    routeMessage (some 1) [exCatA, exCatB] [] ≠ [(Key.signal 1, SendMode.Frequency)] := by
  constructor <;> decide

/-- Category matching network 1 whose override map holds `Off` for
destination `signal 1` (src/src/ui/category_screen.rs line 461 stores
`SendMode::Off` when a group is removed from a category). -/
def exCatOff : SendCategory :=
  { name := "C", networks := [1], groups := [(Key.signal 1, SendMode.Off)], use_general := false }

/-- Claim C7, counterexample: a category override carrying `Off` is
pushed into the record as-is, so routing yields a destination whose
resolved mode is `Off`, which is not active. -/
theorem C7_off_destination_counterexample :
    (Key.signal 1, SendMode.Off) ∈ routeMessage (some 1) [exCatOff] [] ∧
    SendMode.Off.active = false := by
  constructor <;> decide

/-- Helper: every pair produced by the general fallback is active. -/
theorem generalGroups_active (globals : List (Key × Group)) :
    ∀ p ∈ generalGroups globals, p.2.active = true := by
  intro p hp
  simp only [generalGroups, List.mem_map, List.mem_filter] at hp
  obtain ⟨kg, ⟨_, hact⟩, rfl⟩ := hp
  exact hact

/-- Claim C7, amended: destinations drawn from the global table are
filtered to active modes, both when the message has no network tag and
when the category scan produced an empty override map; destinations
taken from category override maps are pushed with their stored mode
unfiltered, which may be `Off`. -/
theorem C7_general_paths_active (categories : List SendCategory)
    (globals : List (Key × Group)) :
    (∀ p ∈ routeMessage none categories globals, p.2.active = true) ∧
    (∀ net, (collectCategoryGroups net categories).1 = [] →
      ∀ p ∈ routeMessage (some net) categories globals, p.2.active = true) := by
  constructor
  · intro p hp
    exact generalGroups_active globals p hp
  · intro net hempty p hp
    simp only [routeMessage, hempty, List.isEmpty_nil, if_true] at hp
    exact generalGroups_active globals p hp

/-- Witness for C7's amended theorem at a concrete input: no category
matches network 2, and the sole active global destination, which routing
resolves, carries an active mode. -/
theorem C7_general_paths_active_witness :
    (Key.signal 5, SendMode.Normal).2.active = true :=
  (C7_general_paths_active [exCatA]
    [(Key.signal 5, { title := "t", send_mode := SendMode.Normal })]).2 2 (by decide)
    (Key.signal 5, SendMode.Normal) (by decide)

/-- Embeds the `ConfirmEdit` handler (src/src/ui/main_screen.rs lines
290-317): the Signal timestamps are swapped to 0 and collected, the
WhatsApp identifier strings are taken (left empty) and collected, the
content is replaced and the status set to `Pending`; the WhatsApp
`sent` flags are not written by this handler. -/
def confirm_edit (m : SendMessageInfo) (new_content : String) :
    SendMessageInfo × List Nat × List String :=
  let timestamps := m.groups_signal.map (fun g => g.timestamp)
  let whatsapp_ids := m.groups_whatsapp.map (fun g => g.sent_id)
  let m1 : SendMessageInfo :=
    { m with
      groups_signal := m.groups_signal.map (fun g => { g with timestamp := 0 }),
      groups_whatsapp := m.groups_whatsapp.map (fun g => { g with sent_id := "" }),
      content := new_content }
  (m1.set_status .Pending, timestamps, whatsapp_ids)

/-- Record that has just finished sending to one WhatsApp destination:
identifier stored, sent flag set, status `Sent`. -/
def exEditRecord : SendMessageInfo :=
  { content := "old", freq := none, status := .Sent,
    groups_signal := [],
    groups_whatsapp := [{ key := "g", sent := true, sent_id := "m1", send_mode := .Normal }] }

/-- Claim C3, counterexample: confirming an edit of a `Sent` record with
one WhatsApp destination leaves that destination's completion marker set
(the `sent` flag stays true and the completed count stays 1), although
the claim requires every completion marker to be reset to unset. -/
theorem C3_whatsapp_marker_not_reset :
    (confirm_edit exEditRecord "new").1.groups_whatsapp.map GroupInfoWhatsapp.sent = [true] ∧
    (confirm_edit exEditRecord "new").1.sent_count = 1 := by
  constructor <;> decide

/-- Claim C3, amended: confirming an edit of a `Sent` record preserves
destination membership and order on both backends, resets every Signal
timestamp to 0 (those markers become unset) returning the old
timestamps exactly once, clears every WhatsApp identifier returning the
old identifiers exactly once, replaces the content and stores `Pending`;
the WhatsApp boolean sent flags, however, are left unchanged rather
than reset. -/
theorem C3_confirm_edit_shape (m : SendMessageInfo) (c : String)
    (_hsent : m.status = .Sent) :
    (confirm_edit m c).1.groups_signal.map GroupInfoSignal.key
        = m.groups_signal.map GroupInfoSignal.key ∧
    (confirm_edit m c).1.groups_signal.map GroupInfoSignal.send_mode
        = m.groups_signal.map GroupInfoSignal.send_mode ∧
    (confirm_edit m c).1.groups_whatsapp.map GroupInfoWhatsapp.key
        = m.groups_whatsapp.map GroupInfoWhatsapp.key ∧
    (confirm_edit m c).1.groups_whatsapp.map GroupInfoWhatsapp.send_mode
        = m.groups_whatsapp.map GroupInfoWhatsapp.send_mode ∧
    ((confirm_edit m c).1.groups_signal.all (fun g => g.timestamp == 0)) = true ∧
    (confirm_edit m c).2.1 = m.groups_signal.map GroupInfoSignal.timestamp ∧
    ((confirm_edit m c).1.groups_whatsapp.all (fun g => g.sent_id == "")) = true ∧
    (confirm_edit m c).2.2 = m.groups_whatsapp.map GroupInfoWhatsapp.sent_id ∧
    (confirm_edit m c).1.groups_whatsapp.map GroupInfoWhatsapp.sent
        = m.groups_whatsapp.map GroupInfoWhatsapp.sent ∧
    (confirm_edit m c).1.content = c ∧
    (confirm_edit m c).1.status = .Pending := by
  refine ⟨?_, ?_, ?_, ?_, ?_, ?_, ?_, ?_, ?_, ?_, ?_⟩ <;>
    simp [confirm_edit, SendMessageInfo.set_status, Function.comp]

/-- Witness for C3's amended theorem: applied to the concrete `Sent`
record with one WhatsApp destination, the returned identifiers are
exactly the old ones. -/
theorem C3_confirm_edit_shape_witness :
    (confirm_edit exEditRecord "new").2.2 = ["m1"] :=
  (C3_confirm_edit_shape exEditRecord "new" rfl).2.2.2.2.2.2.2.1

/-- Embeds the queue-relevant state of `SignalWorker`
(src/src/messangers/signal.rs): the FIFO job queue (jobs as opaque
ids), the abort handle of the in-flight task (tagged with the job it
runs), and whether the backend connection (`manager`) is available. -/
structure SignalWorkerState where
  message_queue : List Nat
  abort_handle : Option Nat
  manager : Bool
deriving DecidableEq, Repr

/-- Embeds `SignalWorker::execute_next_maybe` (src/src/messangers/signal.rs
lines 145-150): when nothing is in flight, the connection is available
and the queue is nonempty, launch the front job. -/
def SignalWorkerState.execute_next_maybe (w : SignalWorkerState) : SignalWorkerState :=
  if w.abort_handle = none ∧ w.manager = true then
    match w.message_queue.head? with
    | some j => { w with abort_handle := some j }
    | none => w
  else w

/-- Embeds the `SignalMessage::Cancel` arm (src/src/messangers/signal.rs
lines 113-120): abort the in-flight task, do not pop the queue, and if
the connection is available run `execute_next_maybe`. -/
def SignalWorkerState.handle_cancel (w : SignalWorkerState) : SignalWorkerState :=
  let w1 := { w with abort_handle := none }
  if w1.manager then w1.execute_next_maybe else w1

/-- Embeds the `SignalMessage::Finished` arm (src/src/messangers/signal.rs
lines 121-125): clear the handle, pop the front job, and run
`execute_next_maybe`. -/
def SignalWorkerState.handle_finished (w : SignalWorkerState) : SignalWorkerState :=
  SignalWorkerState.execute_next_maybe
    { w with abort_handle := none, message_queue := w.message_queue.tail }

/-- Helper: behavior of `execute_next_maybe` on each of its fields. -/
theorem execute_next_maybe_spec (w : SignalWorkerState) :
    w.execute_next_maybe.message_queue = w.message_queue ∧
    (w.abort_handle = none → w.manager = true →
      w.execute_next_maybe.abort_handle = w.message_queue.head?) ∧
    (w.manager = false → w.execute_next_maybe.abort_handle = w.abort_handle) := by
  unfold SignalWorkerState.execute_next_maybe
  by_cases hm : w.manager = true
  · by_cases ha : w.abort_handle = none
    · simp only [ha, hm, and_self, if_true]
      cases hq : w.message_queue.head? <;> simp_all
    · simp_all
  · simp_all

/-- Claim C5: `Cancel` aborts the in-flight task without popping the
queue and, when the connection is available, relaunches the same
front-of-queue job (the new handle runs the queue head); without a
connection nothing is relaunched.  `Finished` pops the front job and
starts the next queued job exactly when the connection is available. -/
theorem C5_cancel_relaunches_finished_pops (w : SignalWorkerState) :
    w.handle_cancel.message_queue = w.message_queue ∧
    (w.manager = true → w.handle_cancel.abort_handle = w.message_queue.head?) ∧
    (w.manager = false → w.handle_cancel.abort_handle = none) ∧
    w.handle_finished.message_queue = w.message_queue.tail ∧
    (w.manager = true → w.handle_finished.abort_handle = w.message_queue.tail.head?) ∧
    (w.manager = false → w.handle_finished.abort_handle = none) := by
  have hcq : w.handle_cancel.message_queue = w.message_queue := by
    unfold SignalWorkerState.handle_cancel
    by_cases hm : w.manager = true
    · simpa [hm] using (execute_next_maybe_spec { w with abort_handle := none }).1
    · simp [hm]
  have hfin := execute_next_maybe_spec
    { w with abort_handle := none, message_queue := w.message_queue.tail }
  refine ⟨hcq, ?_, ?_, ?_, ?_, ?_⟩
  · intro hm
    unfold SignalWorkerState.handle_cancel
    simpa [hm] using (execute_next_maybe_spec { w with abort_handle := none }).2.1 rfl hm
  · intro hm
    unfold SignalWorkerState.handle_cancel
    simp [hm]
  · exact hfin.1
  · intro hm
    exact hfin.2.1 rfl hm
  · intro hm
    have := hfin.2.2 hm
    simpa using this

/-- Witness for C5: with jobs 7 and 8 queued, job 7 in flight and the
connection up, `Cancel` relaunches job 7 and `Finished` starts job 8. -/
theorem C5_cancel_relaunches_finished_pops_witness :
    (SignalWorkerState.mk [7, 8] (some 7) true).handle_cancel.abort_handle = some 7 ∧
    (SignalWorkerState.mk [7, 8] (some 7) true).handle_finished.abort_handle = some 8 :=
  ⟨(C5_cancel_relaunches_finished_pops (SignalWorkerState.mk [7, 8] (some 7) true)).2.1 rfl,
   (C5_cancel_relaunches_finished_pops (SignalWorkerState.mk [7, 8] (some 7) true)).2.2.2.2.1 rfl⟩

/-- Outcome of one send attempt. -/
inductive AttemptOutcome where
  | success
  | transientFailure
  | timedOut
deriving DecidableEq, Repr

/-- Embeds the `futures::future::select(send, timeout)` race of
src/src/signal_actions.rs lines 296-320: the attempt is observed as the
duration the backend call takes together with its result; the send
future wins when it resolves no later than the timer (`select` polls it
first), otherwise the timer wins and the attempt counts as timed out. -/
def raceAttempt (send_timeout duration : Nat) (ok : Bool) : AttemptOutcome :=
  if duration ≤ send_timeout then
    if ok then .success else .transientFailure
  else .timedOut

/-- Embeds the enclosing retry loop of src/src/signal_actions.rs: each
iteration draws the next attempt observation; the loop breaks only when
the race yields success, and otherwise retries, so the result is the
index of the first attempt whose send wins the race with `Ok`. -/
def sendRetrySeq (send_timeout : Nat) : List (Nat × Bool) → Option Nat
  | [] => none
  | (d, ok) :: rest =>
    match raceAttempt send_timeout d ok with
    | .success => some 0
    | _ => (sendRetrySeq send_timeout rest).map (fun i => i + 1)

/-- Embeds the per-destination attempt of src/src/messangers/signal.rs
`send_message` (sequential branch lines 300-322; the parallel branch at
lines 324-349 matches on the same awaited `send_message_inner` result):
the send future is awaited with no timer racing it, so the backend
result alone determines the outcome; the configured timeout and the
observed duration appear as arguments only to record that this code
ignores them. -/
def signalAttemptOutcome (_send_timeout _duration : Nat) (ok : Bool) : AttemptOutcome :=
  if ok then .success else .transientFailure

/-- Claim C4, counterexample: in the current engine an attempt that
resolves successfully after 1000 seconds under a 90 second configured
timeout is treated as a success using that eventual result, not
abandoned as timed out, whereas the historical raced attempt at the
same observation times out. -/
theorem C4_no_timer_counterexample :
    signalAttemptOutcome 90 1000 true = .success ∧
    signalAttemptOutcome 90 1000 true ≠ .timedOut ∧
    raceAttempt 90 1000 true = .timedOut := by
  refine ⟨?_, ?_, ?_⟩ <;> decide

/-- Claim C4, amended: only the historical engine races each attempt
against the operator-configured timer: there a timer win abandons the
attempt, whose eventual result is ignored, and retries, while a send
that resolves in time decides the attempt; in the current engine the
attempt outcome is independent of both the configured timeout and the
attempt duration. -/
theorem C4_race_only_in_old_engine (t d t2 d2 : Nat) (ok : Bool) (rest : List (Nat × Bool)) :
    (t < d → sendRetrySeq t ((d, ok) :: rest) = (sendRetrySeq t rest).map (fun i => i + 1)) ∧
    (d ≤ t → sendRetrySeq t ((d, ok) :: rest)
        = if ok then some 0 else (sendRetrySeq t rest).map (fun i => i + 1)) ∧
    signalAttemptOutcome t d ok = signalAttemptOutcome t2 d2 ok := by
  refine ⟨?_, ?_, rfl⟩
  · intro h
    have hle : ¬ d ≤ t := by omega
    simp [sendRetrySeq, raceAttempt, hle]
  · intro h
    cases ok <;> simp [sendRetrySeq, raceAttempt, h]

/-- Witness for C4's amended theorem: a successful attempt taking 1000
seconds under a 90 second timeout is abandoned and retried by the
historical loop (no later attempt follows, so the loop reports no
success). -/
theorem C4_race_only_in_old_engine_witness :
    sendRetrySeq 90 [(1000, true)] = none :=
  (C4_race_only_in_old_engine 90 1000 0 0 true []).1 (by decide)

/-- Embeds the `Name` conversion `From<Option<&str>>`
(src/src/message/deserialize.rs lines 135-146): a missing or empty name
becomes the fixed placeholder. -/
def nameFromOption : Option String → String
  | some name => if name = "" then "НВ" else name
  | none => "НВ"

/-- Embeds `CleanedMessage::from` (src/src/message/deserialize.rs lines
117-121): sub-message text is trimmed at deserialization. -/
def cleanedMessage (s : String) : String :=
  s.trim

/-- Embeds `MessageInner` (src/src/message/deserialize.rs) as the values
stored after deserialization: `message` holds the already-trimmed
sub-message texts and `reciever`, `sender` the already-converted
names. -/
structure MessageInner where
  message : List String
  comment : Option String
  reciever : String
  sender : String
  datetime : String
  frequency : String
  location : String
  title : String
  source : String
  network_id : Option Nat
deriving DecidableEq, Repr

/-- Embeds `Display for MessageGroup` (src/src/message/deserialize.rs
lines 86-94): each sub-message followed by a newline. -/
def fmtMessageGroup (msgs : List String) : String :=
  msgs.foldl (fun acc m => acc ++ m ++ "\n") ""

/-- Embeds `Display for MessageInner` (src/src/message/deserialize.rs
lines 52-72) as the sequence of formatter writes. -/
def fmtMessageInner (m : MessageInner) : String :=
  m.title ++ "\n" ++ m.location ++ "\n" ++ "\n" ++ m.datetime ++ "\n" ++ "\n"
    ++ "Отримувач: " ++ m.reciever ++ "\n"
    ++ "Відправник: " ++ m.sender ++ "\n"
    ++ "\n"
    ++ fmtMessageGroup m.message
    ++ (match m.comment with
        | some c => if c = "" then "" else "\n" ++ "Коментар: " ++ c
        | none => "")

/-- Rendering layout asserted by the claim, as a second definition
following the claim's words for comparison with the source embedding:
title, blank line, location, blank line, datetime, blank line, receiver
line, sender line, blank line, the sub-messages joined by newlines, then
the comment line only when present and non-empty. -/
def claimRenderedText (m : MessageInner) : String :=
  String.intercalate "\n"
    ([m.title, "", m.location, "", m.datetime, "",
      "Отримувач: " ++ m.reciever, "Відправник: " ++ m.sender, "",
      String.intercalate "\n" m.message]
      ++ (match m.comment with
          | some c => if c = "" then [] else ["Коментар: " ++ c]
          | none => []))

/-- Concrete parsed message used to compare the two renderings. -/
def exRenderMsg : MessageInner :=
  { message := ["A"], comment := none, reciever := "R", sender := "S",
    datetime := "D", frequency := "F", location := "L", title := "T",
    source := "", network_id := none }

/-- Claim C9, counterexample: the source rendering puts no blank line
between the title and the location (the blank line comes after the
location instead), so the rendered text differs from the layout the
claim prescribes at this concrete message. -/
theorem C9_render_counterexample :
    fmtMessageInner exRenderMsg
      = "T\nL\n\nD\n\nОтримувач: R\nВідправник: S\n\nA\n" ∧
    claimRenderedText exRenderMsg
      = "T\n\nL\n\nD\n\nОтримувач: R\nВідправник: S\n\nA" ∧
    fmtMessageInner exRenderMsg ≠ claimRenderedText exRenderMsg := by
  refine ⟨?_, ?_, ?_⟩ <;> decide

/-- Helper: the sub-message block renders each text followed by a
newline. -/
theorem fmtMessageGroup_cons (a : String) (l : List String) :
    fmtMessageGroup (a :: l) = a ++ "\n" ++ fmtMessageGroup l := by
  have aux : ∀ (l : List String) (init : String),
      l.foldl (fun acc m => acc ++ m ++ "\n") init
        = init ++ l.foldl (fun acc m => acc ++ m ++ "\n") "" := by
    intro l
    induction l with
    | nil => intro init; simp [List.foldl]
    | cons b t ih =>
      intro init
      simp only [List.foldl]
      rw [ih (init ++ b ++ "\n"), ih ("" ++ b ++ "\n")]
      simp [String.append_assoc]
  simp only [fmtMessageGroup, List.foldl]
  rw [aux l ("" ++ a ++ "\n")]
  simp [String.append_assoc]

/-- Claim C9, amended: the rendered text is the line sequence title,
location, blank line, datetime, blank line, receiver line, sender line,
blank line, then each sub-message followed by a newline, then a blank
line and the comment line only when the comment is present and
non-empty; a blank or absent receiver or sender name is replaced by the
placeholder. -/
theorem C9_render_layout (m : MessageInner) (a : String) (l : List String) :
    fmtMessageInner m
      = fmtMessageGroup
          [m.title, m.location, "", m.datetime, "",
            "Отримувач: " ++ m.reciever, "Відправник: " ++ m.sender, ""]
        ++ fmtMessageGroup m.message
        ++ (match m.comment with
            | some c => if c = "" then "" else "\n" ++ "Коментар: " ++ c
            | none => "") ∧
    fmtMessageGroup (a :: l) = a ++ "\n" ++ fmtMessageGroup l ∧
    fmtMessageGroup [] = "" ∧
    nameFromOption none = "НВ" ∧
    nameFromOption (some "") = "НВ" := by
  refine ⟨?_, fmtMessageGroup_cons a l, rfl, rfl, rfl⟩
  conv_rhs =>
    rw [fmtMessageGroup_cons, fmtMessageGroup_cons, fmtMessageGroup_cons,
      fmtMessageGroup_cons, fmtMessageGroup_cons, fmtMessageGroup_cons,
      fmtMessageGroup_cons, fmtMessageGroup_cons]
  have h0 : fmtMessageGroup [] = "" := rfl
  rw [h0]
  simp only [fmtMessageInner, String.append_assoc, String.append_empty, String.empty_append]

/-- Embeds `AcceptedMessage` (src/src/message_server.rs lines 46-52). -/
structure AcceptedMessage where
  text : String
  freq : Option String
  network : Option String
  autosend_overwrite : Bool
deriving DecidableEq, Repr

/-- Embeds the `From<OperatorMessage>` conversion
(src/src/message_server.rs lines 54-66): the text is the rendered
message, frequency and network come from the parsed fields, and the
overwrite flag starts false. -/
def AcceptedMessage.fromOperator (m : MessageInner) : AcceptedMessage :=
  { text := fmtMessageInner m, freq := some m.frequency,
    network := some m.title, autosend_overwrite := false }

/-- Embeds the `From<String>` conversion (src/src/message_server.rs
lines 68-77): the raw body becomes a freeform message. -/
def AcceptedMessage.fromRaw (body : String) : AcceptedMessage :=
  { text := body, freq := none, network := none, autosend_overwrite := false }

/-- Embeds the POST handler closure of `start_server`
(src/src/message_server.rs lines 25-39).  The serde parse is an
external collaborator, so its outcome is the `parsed` argument, `none`
modelling a parse failure.  The reply is the literal
`(StatusCode::OK, "Recieved")` on every path; the final Bool reports
whether the parse-error branch logged an error. -/
def handlePost (parsed : Option (List MessageInner)) (body : String) :
    (Nat × String) × List AcceptedMessage × Bool :=
  match parsed with
  | some msgs => ((200, "Recieved"), msgs.map AcceptedMessage.fromOperator, false)
  | none =>
    ((200, "Recieved"),
      [{ AcceptedMessage.fromRaw body with autosend_overwrite := true }], true)

/-- Disposition of one accepted batch: dispatched immediately or queued
for manual review. -/
inductive AcceptAction where
  | autosendAll (msgs : List AcceptedMessage)
  | queueForReview (msgs : List AcceptedMessage)
deriving DecidableEq, Repr

/-- Embeds the `Message::AcceptMessage` arm of `App::update`
(src/src/ui.rs lines 303-322): the batch is auto-sent only when the
autosend setting holds and no message of the batch carries the
overwrite flag; otherwise it is appended to the manual-review queue. -/
def acceptMessage (autosendSetting : Bool) (msgs : List AcceptedMessage) : AcceptAction :=
  let autosend := msgs.foldl (fun acc msg => acc && !msg.autosend_overwrite) autosendSetting
  if autosend then .autosendAll msgs else .queueForReview msgs

/-- Helper: the autosend fold is absorbed by false. -/
theorem acceptFold_false (l : List AcceptedMessage) :
    l.foldl (fun acc msg => acc && !msg.autosend_overwrite) false = false := by
  induction l with
  | nil => rfl
  | cons b t ih => simpa using ih

/-- Helper: a batch containing an overwrite-flagged message makes the
autosend fold false. -/
theorem acceptFold_member_false (msgs : List AcceptedMessage) (m : AcceptedMessage)
    (hm : m ∈ msgs) (hov : m.autosend_overwrite = true) :
    ∀ a : Bool, msgs.foldl (fun acc msg => acc && !msg.autosend_overwrite) a = false := by
  induction msgs with
  | nil => cases hm
  | cons b t ih =>
    intro a
    rcases List.mem_cons.mp hm with rfl | hmem
    · simp only [List.foldl, hov]
      simpa using acceptFold_false t
    · exact ih hmem _

/-- Claim C8: a parse failure still yields the 200 reply, turns the
whole raw body into one freeform accepted message with the overwrite
flag set (and logs the error), and any batch containing an
overwrite-flagged message is routed to the manual-review queue
regardless of the autosend setting. -/
theorem C8_parse_failure_manual_review (body : String) (setting : Bool)
    (msgs : List AcceptedMessage) (m : AcceptedMessage) :
    (handlePost none body).1 = (200, "Recieved") ∧
    (handlePost none body).2.1
      = [{ text := body, freq := none, network := none, autosend_overwrite := true }] ∧
    (handlePost none body).2.2 = true ∧
    (m ∈ msgs → m.autosend_overwrite = true →
      acceptMessage setting msgs = .queueForReview msgs) := by
  refine ⟨rfl, rfl, rfl, ?_⟩
  intro hm hov
  unfold acceptMessage
  simp [acceptFold_member_false msgs m hm hov setting]

/-- Witness for C8 at a concrete input: the single freeform message that
a failed parse produces is queued for manual review even with autosend
enabled. -/
theorem C8_parse_failure_manual_review_witness :
    acceptMessage true
        [{ text := "x", freq := none, network := none, autosend_overwrite := true }]
      = .queueForReview
          [{ text := "x", freq := none, network := none, autosend_overwrite := true }] :=
  (C8_parse_failure_manual_review "x" true
      [{ text := "x", freq := none, network := none, autosend_overwrite := true }]
      { text := "x", freq := none, network := none, autosend_overwrite := true }).2.2.2
    (by simp) rfl

/-- Embeds the body construction of `send_message_inner`
(src/src/messangers/signal.rs lines 361-388, non-markdown branch; the
markdown branch applies the external formatter first and guards
identically): the frequency line is prepended exactly in `Frequency`
mode with a present frequency field. -/
def signalMessageBody (mode : SendMode) (freq : Option String) (content : String) : String :=
  match mode, freq with
  | .Frequency, some f => f ++ "\n" ++ content
  | _, _ => content

/-- Embeds the `conversation` body construction of the WhatsApp
`send_message` loop (src/src/messangers/whatsapp.rs lines 81-92). -/
def whatsappMessageBody (mode : SendMode) (freq : Option String) (content : String) : String :=
  match mode, freq with
  | .Frequency, some f => f ++ "\n" ++ content
  | _, _ => content

/-- Claim C10: on both backends the frequency annotation is prepended to
the outgoing body exactly when the destination's mode is `Frequency` and
the frequency field is present; with an absent frequency the body is
sent unprefixed even in `Frequency` mode. -/
theorem C10_frequency_prepended (mode : SendMode) (f c : String) :
    signalMessageBody mode (some f) c = (if mode = .Frequency then f ++ "\n" ++ c else c) ∧
    signalMessageBody mode none c = c ∧
    whatsappMessageBody mode (some f) c = (if mode = .Frequency then f ++ "\n" ++ c else c) ∧
    whatsappMessageBody mode none c = c := by
  cases mode <;> simp [signalMessageBody, whatsappMessageBody]

end MessageSender
